import Mathlib

/-!
Verification of the SEO-analyzer backend's page-scoring checklist
(`src/seo_analyzer.py`) and the in-memory TTL cache (`src/cache_service.py`).

The Python code is shallowly embedded: each check function becomes a pure
Lean function over the data it inspects, Python floats used only for exact
arithmetic and comparisons are modelled by `ℚ`, and the stateful cache is
modelled as explicit state passing over a functional map.
-/

namespace SeoAnalyzer

/-- One scored check, as built throughout `seo_analyzer.py`: a dict with
`status`, `score`, `max_score`, `message`, `recommendation`, `priority`.
Every check the analyzer builds carries both `score` and `max_score`. -/
structure Check where
  status : String
  score : ℤ
  max_score : ℤ
  message : String
  recommendation : Option String
  priority : String
deriving Repr, DecidableEq

/-- Python's built-in `round` to an integer: nearest integer, ties to even
(the rounding `round((total_score / max_total_score) * 100)` performs). -/
def pyRound (q : ℚ) : ℤ :=
  if q - ⌊q⌋ < 1/2 then ⌊q⌋
  else if 1/2 < q - ⌊q⌋ then ⌊q⌋ + 1
  else if ⌊q⌋ % 2 = 0 then ⌊q⌋ else ⌊q⌋ + 1

/-- The accumulation loop of `_calculate_overall_score`: iterate over the
categories of `details` and over each category's checks, summing `score`
into the first component and `max_score` into the second. -/
def scoreTotals (details : List (String × List (String × Check))) : ℤ × ℤ :=
  details.foldl
    (fun acc cat =>
      cat.2.foldl (fun a ck => (a.1 + ck.2.score, a.2 + ck.2.max_score)) acc)
    (0, 0)

/-- `SEOAnalyzer._calculate_overall_score`: sum scores and max scores over
all checks of all categories; return 0 when the max total is 0, else
`round((total_score / max_total_score) * 100)`. -/
def calculate_overall_score (details : List (String × List (String × Check))) : ℤ :=
  let t := scoreTotals details
  if t.2 = 0 then 0
  else pyRound (((t.1 : ℚ) / (t.2 : ℚ)) * 100)

/-- The flat list of all checks of all categories, in iteration order. -/
def allChecks (details : List (String × List (String × Check))) : List Check :=
  (details.map Prod.snd).flatten.map Prod.snd

lemma innerFold_eq (l : List (String × Check)) (a : ℤ × ℤ) :
    l.foldl (fun a ck => (a.1 + ck.2.score, a.2 + ck.2.max_score)) a
      = (a.1 + ((l.map Prod.snd).map Check.score).sum,
         a.2 + ((l.map Prod.snd).map Check.max_score).sum) := by
  induction l generalizing a with
  | nil => simp
  | cons hd tl ih =>
      simp only [List.foldl_cons, List.map_cons, List.sum_cons, ih, Prod.mk.injEq]
      constructor <;> ring

lemma outerFold_eq (details : List (String × List (String × Check))) (a : ℤ × ℤ) :
    details.foldl
      (fun acc cat =>
        cat.2.foldl (fun a ck => (a.1 + ck.2.score, a.2 + ck.2.max_score)) acc) a
      = (a.1 + ((allChecks details).map Check.score).sum,
         a.2 + ((allChecks details).map Check.max_score).sum) := by
  induction details generalizing a with
  | nil => simp [allChecks]
  | cons hd tl ih =>
      rw [List.foldl_cons, ih]
      simp only [innerFold_eq, allChecks, List.map_cons, List.flatten_cons,
        List.map_append, List.sum_append, Prod.mk.injEq]
      constructor <;> ring

lemma scoreTotals_eq (details : List (String × List (String × Check))) :
    scoreTotals details
      = (((allChecks details).map Check.score).sum,
         ((allChecks details).map Check.max_score).sum) := by
  unfold scoreTotals
  rw [outerFold_eq]
  simp

lemma pyRound_lower (q : ℚ) : ⌊q⌋ ≤ pyRound q := by
  unfold pyRound
  split
  · exact le_refl _
  · split
    · omega
    · split <;> omega

lemma pyRound_upper (q : ℚ) : pyRound q ≤ ⌊q⌋ + 1 := by
  unfold pyRound
  split
  · omega
  · split
    · omega
    · split <;> omega

lemma pyRound_nonneg (q : ℚ) (hq : 0 ≤ q) : 0 ≤ pyRound q := by
  have h := pyRound_lower q
  have : (0 : ℤ) ≤ ⌊q⌋ := by
    exact_mod_cast Int.le_floor.mpr (by exact_mod_cast hq)
  omega

lemma pyRound_le_of_le (q : ℚ) (B : ℤ) (hq : q ≤ B) : pyRound q ≤ B := by
  by_cases hlt : q < B
  · have hfl : ⌊q⌋ ≤ B - 1 := by
      have : ⌊q⌋ < B := Int.floor_lt.mpr (by exact_mod_cast hlt)
      omega
    have := pyRound_upper q
    omega
  · have heq : q = (B : ℚ) := le_antisymm hq (not_lt.mp hlt)
    rw [heq]
    unfold pyRound
    rw [Int.floor_intCast]
    norm_num

/-- C1: for a details mapping whose checks all satisfy
`0 ≤ score ≤ max_score`, `_calculate_overall_score` returns
`round(100 * Σ score / Σ max_score)` (Python's banker's rounding), an integer
between 0 and 100 inclusive, and returns 0 when `Σ max_score = 0`. -/
theorem C1_calculate_overall_score
    (details : List (String × List (String × Check)))
    (hbound : ∀ c ∈ allChecks details, 0 ≤ c.score ∧ c.score ≤ c.max_score) :
    (((allChecks details).map Check.max_score).sum = 0 →
        calculate_overall_score details = 0)
    ∧ (((allChecks details).map Check.max_score).sum ≠ 0 →
        calculate_overall_score details
          = pyRound (100 * (((allChecks details).map Check.score).sum : ℚ)
              / (((allChecks details).map Check.max_score).sum : ℚ)))
    ∧ 0 ≤ calculate_overall_score details
    ∧ calculate_overall_score details ≤ 100 := by
  have hS : (0 : ℤ) ≤ ((allChecks details).map Check.score).sum := by
    apply List.sum_nonneg
    intro x hx
    simp only [List.mem_map] at hx
    obtain ⟨c, hc, rfl⟩ := hx
    exact (hbound c hc).1
  have hSM : ((allChecks details).map Check.score).sum
      ≤ ((allChecks details).map Check.max_score).sum :=
    List.sum_le_sum (fun c hc => (hbound c hc).2)
  unfold calculate_overall_score
  rw [scoreTotals_eq]
  set S := ((allChecks details).map Check.score).sum with hSdef
  set M := ((allChecks details).map Check.max_score).sum with hMdef
  by_cases hM : M = 0
  · simp [hM]
  · have hMpos : (0 : ℤ) < M := lt_of_le_of_ne (le_trans hS hSM) (Ne.symm hM)
    have hMQ : (0 : ℚ) < (M : ℚ) := by exact_mod_cast hMpos
    have hformula : ((S : ℚ) / (M : ℚ)) * 100 = 100 * (S : ℚ) / (M : ℚ) := by
      ring
    have hqnonneg : (0 : ℚ) ≤ ((S : ℚ) / (M : ℚ)) * 100 := by
      apply mul_nonneg
      · exact div_nonneg (by exact_mod_cast hS) (le_of_lt hMQ)
      · norm_num
    have hqle : ((S : ℚ) / (M : ℚ)) * 100 ≤ ((100 : ℤ) : ℚ) := by
      have hdiv : (S : ℚ) / (M : ℚ) ≤ 1 :=
        (div_le_one hMQ).mpr (by exact_mod_cast hSM)
      push_cast
      nlinarith
    refine ⟨fun h => absurd h hM, fun _ => by simp [hM, hformula], ?_, ?_⟩
    · simp only [hM, if_false]
      exact pyRound_nonneg _ hqnonneg
    · simp only [hM, if_false]
      exact pyRound_le_of_le _ 100 hqle

/-- Closed instance of `C1_calculate_overall_score` at a concrete details
mapping with three checks (15 achieved points out of 25). -/
theorem C1_calculate_overall_score_witness :
    calculate_overall_score
        [("seo", [("title_tag", ⟨"pass", 10, 10, "ok", none, "low"⟩),
                  ("h1_tag", ⟨"warning", 5, 10, "multiple", some "use one", "medium"⟩)]),
         ("technical", [("xml_sitemap", ⟨"warning", 0, 5, "not found", some "add one", "medium"⟩)])]
      ≤ 100 := by
  exact (C1_calculate_overall_score
    [("seo", [("title_tag", ⟨"pass", 10, 10, "ok", none, "low"⟩),
              ("h1_tag", ⟨"warning", 5, 10, "multiple", some "use one", "medium"⟩)]),
     ("technical", [("xml_sitemap", ⟨"warning", 0, 5, "not found", some "add one", "medium"⟩)])]
    (by decide)).2.2.2

/-- C2: the overall score depends only on the multiset of checks — any two
details mappings whose flattened check lists are permutations of one another
(categories and checks reordered or regrouped) get the same overall score. -/
theorem C2_overall_score_perm_invariant
    (d₁ d₂ : List (String × List (String × Check)))
    (hp : (allChecks d₁).Perm (allChecks d₂)) :
    calculate_overall_score d₁ = calculate_overall_score d₂ := by
  unfold calculate_overall_score
  rw [scoreTotals_eq, scoreTotals_eq,
    (hp.map Check.score).sum_eq, (hp.map Check.max_score).sum_eq]

/-- Closed instance of `C2_overall_score_perm_invariant`: one category with
two checks versus the two checks swapped into separate categories. -/
theorem C2_overall_score_perm_invariant_witness :
    calculate_overall_score
        [("seo", [("title_tag", ⟨"pass", 10, 10, "ok", none, "low"⟩),
                  ("h1_tag", ⟨"warning", 5, 10, "multiple", none, "medium"⟩)])]
      = calculate_overall_score
        [("a", [("h1_tag", ⟨"warning", 5, 10, "multiple", none, "medium"⟩)]),
         ("b", [("title_tag", ⟨"pass", 10, 10, "ok", none, "low"⟩)])] := by
  exact C2_overall_score_perm_invariant _ _ (by decide)

/-- Python `str.strip()` with no arguments: remove leading and trailing
whitespace characters. -/
def pyStrip (s : String) : String :=
  String.mk ((s.data.dropWhile Char.isWhitespace).reverse.dropWhile Char.isWhitespace).reverse

/-- Python `len` on a string: the number of characters. -/
def pyLen (s : String) : ℕ := s.data.length

/-- Python `s.startswith(p)`. -/
def pyStartswith (s p : String) : Bool := p.data.isPrefixOf s.data

/-- `_check_seo_factors`, title-tag branch: the check stored under
`'title_tag'`, as a function of the optional `<title>` element's text
(`none` when `soup.find('title')` returns nothing). -/
def title_tag_check (title : Option String) : Check :=
  match title with
  | some t =>
      let title_text := pyStrip t
      if pyLen title_text = 0 then
        ⟨"fail", 0, 10, "Title tag is empty",
          some "Add a descriptive title tag to your page", "high"⟩
      else if pyLen title_text > 60 then
        ⟨"warning", 7, 10,
          "Title tag is too long (" ++ toString (pyLen title_text) ++ " characters)",
          some "Keep title tags under 60 characters for better display in search results",
          "medium"⟩
      else
        ⟨"pass", 10, 10,
          "Title tag length is optimal (" ++ toString (pyLen title_text) ++ " characters)",
          none, "low"⟩
  | none =>
      ⟨"fail", 0, 10, "Title tag is missing", some "Add a title tag to your page",
        "critical"⟩

/-- `_check_seo_factors`, meta-description branch: the check stored under
`'meta_description'`, as a function of the meta tag's `content` attribute
(`none` when no `<meta name="description">` exists; the code defaults a
missing `content` attribute to the empty string before stripping). -/
def meta_description_check (content : Option String) : Check :=
  match content with
  | some c =>
      let desc_content := pyStrip c
      if pyLen desc_content = 0 then
        ⟨"fail", 0, 10, "Meta description is empty",
          some "Add a compelling meta description", "high"⟩
      else if pyLen desc_content > 160 then
        ⟨"warning", 7, 10,
          "Meta description is too long (" ++ toString (pyLen desc_content) ++ " characters)",
          some "Keep meta descriptions under 160 characters", "medium"⟩
      else
        ⟨"pass", 10, 10,
          "Meta description length is optimal (" ++ toString (pyLen desc_content) ++ " characters)",
          none, "low"⟩
  | none =>
      ⟨"fail", 0, 10, "Meta description is missing",
        some "Add a meta description to improve click-through rates", "high"⟩

/-- `_check_seo_factors`, H1 branch: the check stored under `'h1_tag'`, as a
function of `len(soup.find_all('h1'))`. -/
def h1_tag_check (h1_count : ℕ) : Check :=
  if h1_count = 0 then
    ⟨"fail", 0, 10, "No H1 tag found",
      some "Add an H1 tag to clearly define the main topic of your page", "high"⟩
  else if h1_count > 1 then
    ⟨"warning", 5, 10, "Multiple H1 tags found (" ++ toString h1_count ++ ")",
      some "Use only one H1 tag per page for better SEO", "medium"⟩
  else
    ⟨"pass", 10, 10, "Single H1 tag found", none, "low"⟩

/-- `_check_technical_factors`, SSL branch: the check stored under
`'ssl_certificate'`, as a function of the `url` argument
(`url.startswith('https://')`). -/
def ssl_certificate_check (url : String) : Check :=
  if pyStartswith url "https://" then
    ⟨"pass", 10, 10, "SSL certificate is present", none, "low"⟩
  else
    ⟨"fail", 0, 10, "No SSL certificate found",
      some "Install an SSL certificate to secure your website", "critical"⟩

/-- The outcome of one HTTP probe (`self.session.get(...)`): either a raised
exception or a status code. -/
abbrev ProbeOutcome := Except Unit ℕ

instance : DecidableEq ProbeOutcome := fun a b =>
  match a, b with
  | Except.ok x, Except.ok y =>
      if h : x = y then isTrue (by rw [h]) else isFalse (fun hc => by cases hc; exact h rfl)
  | Except.error x, Except.error y => isTrue (by cases x; cases y; rfl)
  | Except.ok _, Except.error _ => isFalse (fun hc => by cases hc)
  | Except.error _, Except.ok _ => isFalse (fun hc => by cases hc)

/-- `_check_robots_txt`: probe `robots.txt`; true exactly when the probe
returns status 200; a raised exception yields false. -/
def check_robots_txt (probe : ProbeOutcome) : Bool :=
  match probe with
  | Except.ok status => status == 200
  | Except.error _ => false

/-- `_check_sitemap`: probe `/sitemap.xml` then `/sitemap_index.xml` in
order, returning true as soon as a probe returns status 200. The whole loop
sits inside one `try`: an exception raised by either probe makes the
function return false immediately, so the second probe only runs when the
first completed with a non-200 status. -/
def check_sitemap (probe1 probe2 : ProbeOutcome) : Bool :=
  match probe1 with
  | Except.error _ => false
  | Except.ok s1 =>
      if s1 == 200 then true
      else
        match probe2 with
        | Except.error _ => false
        | Except.ok s2 => s2 == 200

/-- `_check_technical_factors`, robots.txt branch: the check stored under
`'robots_txt'` as a function of `_check_robots_txt`'s result. -/
def robots_txt_check (robots_exists : Bool) : Check :=
  if robots_exists then
    ⟨"pass", 5, 5, "Robots.txt file found", none, "low"⟩
  else
    ⟨"warning", 0, 5, "Robots.txt file not found",
      some "Create a robots.txt file to guide search engine crawlers", "medium"⟩

/-- `_check_technical_factors`, sitemap branch: the check stored under
`'xml_sitemap'` as a function of `_check_sitemap`'s result. -/
def xml_sitemap_check (sitemap_exists : Bool) : Check :=
  if sitemap_exists then
    ⟨"pass", 5, 5, "XML sitemap found", none, "low"⟩
  else
    ⟨"warning", 0, 5, "XML sitemap not found",
      some "Create an XML sitemap to help search engines index your content", "medium"⟩

/-- Python's `not img.get('alt')`: true when the `alt` attribute is absent
(`img.get('alt')` is `None`) or is the empty string (falsy). -/
def image_missing_alt (alt : Option String) : Bool :=
  match alt with
  | none => true
  | some s => s == ""

/-- `_check_content_factors`, image-alt branch: the check stored under
`'image_alt_attributes'`, as a function of the list of `alt` attributes of
the page's `<img>` elements (`none` for an image with no `alt`). -/
def image_alt_attributes_check (images : List (Option String)) : Check :=
  let images_without_alt := images.filter image_missing_alt
  if images.length = 0 then
    ⟨"info", 5, 5, "No images found on page", none, "low"⟩
  else if images_without_alt.length = 0 then
    ⟨"pass", 10, 10, "All images have alt attributes", none, "low"⟩
  else
    ⟨"warning", 5, 10,
      toString images_without_alt.length ++ " out of " ++ toString images.length
        ++ " images missing alt attributes",
      some "Add descriptive alt attributes to all images for better accessibility and SEO",
      "medium"⟩

/-- `_check_content_factors`, word-count branch: the check stored under
`'content_length'`. -/
def content_length_check (word_count : ℕ) : Check :=
  if word_count < 300 then
    ⟨"warning", 3, 10, "Content is quite short (" ++ toString word_count ++ " words)",
      some "Consider adding more comprehensive content (aim for 300+ words)", "medium"⟩
  else if word_count < 500 then
    ⟨"pass", 7, 10, "Content length is adequate (" ++ toString word_count ++ " words)",
      some "Consider expanding content for better SEO value", "low"⟩
  else
    ⟨"pass", 10, 10, "Content length is good (" ++ toString word_count ++ " words)",
      none, "low"⟩

/-- `_check_performance_factors`, load-time branch: the check stored under
`'page_load_time'`. -/
def page_load_time_check (load_time_ms : ℕ) : Check :=
  if load_time_ms < 1000 then
    ⟨"pass", 10, 10, "Page loads quickly (" ++ toString load_time_ms ++ "ms)", none, "low"⟩
  else if load_time_ms < 3000 then
    ⟨"warning", 7, 10, "Page load time is acceptable (" ++ toString load_time_ms ++ "ms)",
      some "Consider optimizing images and scripts to improve load time", "medium"⟩
  else
    ⟨"fail", 3, 10, "Page loads slowly (" ++ toString load_time_ms ++ "ms)",
      some "Optimize images, enable compression, and minimize scripts", "high"⟩

/-- `_check_performance_factors`, compression branch: the check stored under
`'gzip_compression'` (`'gzip' in response.headers.get('content-encoding', '')`). -/
def gzip_compression_check (gzip_enabled : Bool) : Check :=
  if gzip_enabled then
    ⟨"pass", 5, 5, "GZIP compression is enabled", none, "low"⟩
  else
    ⟨"fail", 0, 5, "GZIP compression is not enabled",
      some "Enable GZIP compression to reduce page size", "medium"⟩

/-- `_check_mobile_factors`: the check stored under `'viewport_meta_tag'`
(`soup.find('meta', attrs=...)` for name `viewport`). -/
def viewport_meta_tag_check (viewport_present : Bool) : Check :=
  if viewport_present then
    ⟨"pass", 10, 10, "Viewport meta tag is present", none, "low"⟩
  else
    ⟨"fail", 0, 10, "Viewport meta tag is missing",
      some "Add a viewport meta tag for mobile responsiveness", "high"⟩

/-- The successful outcome of `self.session.get(url, allow_redirects=True)`
plus the parsed document: the fields of the response and DOM that the
analysis reads. `url` is `response.url`, the final URL after redirects —
which the code never reads (it keeps using the `url` it was called with). -/
structure Response where
  url : String
  title : Option String
  meta_description : Option String
  h1_count : ℕ
  image_alts : List (Option String)
  word_count : ℕ
  load_time_ms : ℕ
  gzip_encoding : Bool
  cache_control_present : Bool
  viewport_present : Bool
  robots_probe : ProbeOutcome
  sitemap_probe1 : ProbeOutcome
  sitemap_probe2 : ProbeOutcome
deriving Repr, DecidableEq

/-- `_check_seo_factors(url, soup, response)`: the `checks` dict, in
insertion order. -/
def check_seo_factors (r : Response) : List (String × Check) :=
  [("title_tag", title_tag_check r.title),
   ("meta_description", meta_description_check r.meta_description),
   ("h1_tag", h1_tag_check r.h1_count)]

/-- `_check_technical_factors(url, soup, response)`: the `checks` dict.
`url` is the argument `analyze_website` passes through — the URL the
analysis was asked for, not the response's final URL. -/
def check_technical_factors (url : String) (r : Response) : List (String × Check) :=
  [("ssl_certificate", ssl_certificate_check url),
   ("robots_txt", robots_txt_check (check_robots_txt r.robots_probe)),
   ("xml_sitemap", xml_sitemap_check (check_sitemap r.sitemap_probe1 r.sitemap_probe2))]

/-- `_check_content_factors(soup)`: the `checks` dict. -/
def check_content_factors (r : Response) : List (String × Check) :=
  [("image_alt_attributes", image_alt_attributes_check r.image_alts),
   ("content_length", content_length_check r.word_count)]

/-- `_check_performance_factors(response, load_time_ms)`: the `checks` dict. -/
def check_performance_factors (r : Response) : List (String × Check) :=
  [("page_load_time", page_load_time_check r.load_time_ms),
   ("gzip_compression", gzip_compression_check r.gzip_encoding)]

/-- `_check_mobile_factors(soup)`: the `checks` dict. -/
def check_mobile_factors (r : Response) : List (String × Check) :=
  [("viewport_meta_tag", viewport_meta_tag_check r.viewport_present)]

/-- The `details` dict `analyze_website` assembles, category by category. -/
def analysis_details (url : String) (r : Response) : List (String × List (String × Check)) :=
  [("seo", check_seo_factors r),
   ("technical", check_technical_factors url r),
   ("content", check_content_factors r),
   ("performance", check_performance_factors r),
   ("mobile", check_mobile_factors r)]

/-- The dict `analyze_website` returns on success (the fields relevant to
the checks; the simulated `seo_metrics` / `performance_metrics` /
`security_scan` blobs are omitted). -/
structure AnalysisResult where
  overall_score : ℤ
  page_title : Option String
  meta_description : Option String
  details : List (String × List (String × Check))
deriving Repr, DecidableEq

/-- `analyze_website(url)`: the fetch either raises a
`requests.exceptions.RequestException` (modelled as `Except.error` with the
exception's message) or yields a response; on a fetch error the handler
re-raises `Exception("Failed to fetch website: " + str(e))` and nothing is
returned. -/
def analyze_website (url : String) (fetch : Except String Response) :
    Except String AnalysisResult :=
  match fetch with
  | Except.error e => Except.error ("Failed to fetch website: " ++ e)
  | Except.ok r =>
      Except.ok
        { overall_score := calculate_overall_score (analysis_details url r),
          page_title := r.title.map pyStrip,
          meta_description := r.meta_description.map pyStrip,
          details := analysis_details url r }

lemma image_missing_alt_eq :
    image_missing_alt = fun a : Option String => decide (a = none ∨ a = some "") := by
  funext a
  cases a with
  | none => simp [image_missing_alt]
  | some s => by_cases h : s = "" <;> simp [image_missing_alt, h]

/-- C3: the `title_tag` check fails 0/10 when the `<title>` element is
missing or its stripped text is empty; warns 7/10 when the stripped text is
strictly longer than 60 characters (so 61 characters warn); and passes
10/10 otherwise (so exactly 60 characters pass). -/
theorem C3_title_tag_check (title : Option String) :
    ((title = none ∨ ∃ t, title = some t ∧ pyLen (pyStrip t) = 0) →
        (title_tag_check title).status = "fail"
          ∧ (title_tag_check title).score = 0
          ∧ (title_tag_check title).max_score = 10)
    ∧ (∀ t, title = some t → 60 < pyLen (pyStrip t) →
        (title_tag_check title).status = "warning"
          ∧ (title_tag_check title).score = 7
          ∧ (title_tag_check title).max_score = 10)
    ∧ (∀ t, title = some t → 0 < pyLen (pyStrip t) → pyLen (pyStrip t) ≤ 60 →
        (title_tag_check title).status = "pass"
          ∧ (title_tag_check title).score = 10
          ∧ (title_tag_check title).max_score = 10) := by
  refine ⟨?_, ?_, ?_⟩
  · rintro (rfl | ⟨t, rfl, ht⟩)
    · simp [title_tag_check]
    · simp [title_tag_check, ht]
  · rintro t rfl ht
    have h0 : ¬ pyLen (pyStrip t) = 0 := by omega
    simp [title_tag_check, h0, ht]
  · rintro t rfl h1 h2
    have h0 : ¬ pyLen (pyStrip t) = 0 := by omega
    have h60 : ¬ pyLen (pyStrip t) > 60 := by omega
    simp [title_tag_check, h0, h60]

/-- Closed instance of `C3_title_tag_check`: a 61-character title warns
with 7/10. -/
theorem C3_title_tag_check_witness :
    (title_tag_check
        (some "abcdefghij0123456789abcdefghij0123456789abcdefghij0123456789X")).status
        = "warning"
    ∧ (title_tag_check
        (some "abcdefghij0123456789abcdefghij0123456789abcdefghij0123456789X")).score = 7
    ∧ (title_tag_check
        (some "abcdefghij0123456789abcdefghij0123456789abcdefghij0123456789X")).max_score
        = 10 :=
  (C3_title_tag_check
      (some "abcdefghij0123456789abcdefghij0123456789abcdefghij0123456789X")).2.1
    _ rfl (by decide)

/-- A concrete fetch outcome: the request was made for an HTTP URL and the
server redirected to HTTPS, so the response's final URL is
`https://example.com/`. -/
def redirected_response : Response :=
  { url := "https://example.com/",
    title := some "Example",
    meta_description := none,
    h1_count := 1,
    image_alts := [],
    word_count := 100,
    load_time_ms := 500,
    gzip_encoding := false,
    cache_control_present := false,
    viewport_present := true,
    robots_probe := Except.ok 404,
    sitemap_probe1 := Except.ok 404,
    sitemap_probe2 := Except.ok 404 }

/-- C4 counterexample: for the request URL `http://example.com/` whose
response's final URL after redirects is `https://example.com/`, the final
URL's scheme is HTTPS, yet the `ssl_certificate` check fails with score 0 —
the code tests the URL it was called with and never reads `response.url`. -/
theorem C4_counterexample :
    pyStartswith redirected_response.url "https://" = true
    ∧ ((check_technical_factors "http://example.com/" redirected_response).lookup
        "ssl_certificate").map Check.status = some "fail"
    ∧ ((check_technical_factors "http://example.com/" redirected_response).lookup
        "ssl_certificate").map Check.score = some 0 := by
  decide

/-- C4 (amended): the `ssl_certificate` check passes 10/10 exactly when the
*requested* URL (the argument `analyze_website` was called with, before any
redirect) starts with `https://`, independently of the response (in
particular of the final URL and of certificate validity); otherwise it
fails 0/10. -/
theorem C4_ssl_certificate_check (url : String) (r : Response) :
    (pyStartswith url "https://" = true →
        (check_technical_factors url r).lookup "ssl_certificate"
          = some ⟨"pass", 10, 10, "SSL certificate is present", none, "low"⟩)
    ∧ (pyStartswith url "https://" = false →
        (check_technical_factors url r).lookup "ssl_certificate"
          = some ⟨"fail", 0, 10, "No SSL certificate found",
              some "Install an SSL certificate to secure your website", "critical"⟩) := by
  constructor <;> intro h <;>
    simp [check_technical_factors, ssl_certificate_check, h, List.lookup]

/-- Closed instance of `C4_ssl_certificate_check` at an HTTPS request URL. -/
theorem C4_ssl_certificate_check_witness :
    (check_technical_factors "https://example.com/" redirected_response).lookup
        "ssl_certificate"
      = some ⟨"pass", 10, 10, "SSL certificate is present", none, "low"⟩ :=
  (C4_ssl_certificate_check "https://example.com/" redirected_response).1 (by decide)

/-- C5: the `image_alt_attributes` check is info 5/5 when the page has no
images; pass 10/10 when every image has a non-empty `alt`; and otherwise
warning 5/10 with a message reporting how many images have a missing or
empty `alt`. -/
theorem C5_image_alt_attributes_check (images : List (Option String)) :
    (images = [] →
        image_alt_attributes_check images
          = ⟨"info", 5, 5, "No images found on page", none, "low"⟩)
    ∧ (images ≠ [] → (∀ a ∈ images, ∃ s, a = some s ∧ s ≠ "") →
        image_alt_attributes_check images
          = ⟨"pass", 10, 10, "All images have alt attributes", none, "low"⟩)
    ∧ (images ≠ [] → (∃ a ∈ images, a = none ∨ a = some "") →
        (image_alt_attributes_check images).status = "warning"
          ∧ (image_alt_attributes_check images).score = 5
          ∧ (image_alt_attributes_check images).max_score = 10
          ∧ (image_alt_attributes_check images).message
              = toString (images.countP fun a => decide (a = none ∨ a = some ""))
                  ++ " out of " ++ toString images.length
                  ++ " images missing alt attributes") := by
  have hlen : images.length = 0 ↔ images = [] := List.length_eq_zero
  refine ⟨?_, ?_, ?_⟩
  · rintro rfl
    simp [image_alt_attributes_check]
  · intro hne hall
    have hfil : images.filter image_missing_alt = [] := by
      rw [List.filter_eq_nil_iff]
      intro a ha
      obtain ⟨s, rfl, hs⟩ := hall a ha
      simp [image_missing_alt, hs]
    have h0 : ¬ images.length = 0 := fun h => hne (hlen.mp h)
    simp [image_alt_attributes_check, h0, hfil]
  · intro hne hex
    obtain ⟨a, ha, hmiss⟩ := hex
    have hmiss' : image_missing_alt a = true := by
      rw [image_missing_alt_eq]
      simpa using hmiss
    have hmem : a ∈ images.filter image_missing_alt :=
      List.mem_filter.mpr ⟨ha, hmiss'⟩
    have hfil : ¬ (images.filter image_missing_alt).length = 0 := by
      intro h
      rw [List.length_eq_zero] at h
      rw [h] at hmem
      exact absurd hmem (List.not_mem_nil a)
    have h0 : ¬ images.length = 0 := fun h => hne (hlen.mp h)
    have hcount : (images.filter image_missing_alt).length
        = images.countP fun a => decide (a = none ∨ a = some "") := by
      rw [← image_missing_alt_eq, List.countP_eq_length_filter]
    simp only [image_alt_attributes_check]
    rw [if_neg h0, if_neg hfil, hcount]
    exact ⟨rfl, rfl, rfl, rfl⟩

/-- Closed instance of `C5_image_alt_attributes_check`: one of two images
misses its `alt`, so the check warns 5/10 and reports "1 out of 2". -/
theorem C5_image_alt_attributes_check_witness :
    (image_alt_attributes_check [some "logo", none]).status = "warning"
    ∧ (image_alt_attributes_check [some "logo", none]).score = 5
    ∧ (image_alt_attributes_check [some "logo", none]).max_score = 10
    ∧ (image_alt_attributes_check [some "logo", none]).message
        = toString (([some "logo", none] : List (Option String)).countP
              fun a => decide (a = none ∨ a = some ""))
            ++ " out of " ++ toString ([some "logo", none] : List (Option String)).length
            ++ " images missing alt attributes" :=
  (C5_image_alt_attributes_check [some "logo", none]).2.2 (by decide)
    ⟨none, by decide, Or.inl rfl⟩

/-- C6: the `h1_tag` check fails 0/10 with zero `<h1>` elements, warns 5/10
with more than one, and passes 10/10 with exactly one. -/
theorem C6_h1_tag_check (h1_count : ℕ) :
    (h1_count = 0 →
        (h1_tag_check h1_count).status = "fail"
          ∧ (h1_tag_check h1_count).score = 0
          ∧ (h1_tag_check h1_count).max_score = 10)
    ∧ (1 < h1_count →
        (h1_tag_check h1_count).status = "warning"
          ∧ (h1_tag_check h1_count).score = 5
          ∧ (h1_tag_check h1_count).max_score = 10)
    ∧ (h1_count = 1 →
        (h1_tag_check h1_count).status = "pass"
          ∧ (h1_tag_check h1_count).score = 10
          ∧ (h1_tag_check h1_count).max_score = 10) := by
  refine ⟨?_, ?_, ?_⟩
  · rintro rfl
    simp [h1_tag_check]
  · intro h
    have h0 : ¬ h1_count = 0 := by omega
    simp [h1_tag_check, h0, h]
  · rintro rfl
    simp [h1_tag_check]

/-- Closed instance of `C6_h1_tag_check` at exactly one `<h1>`. -/
theorem C6_h1_tag_check_witness :
    (h1_tag_check 1).status = "pass"
    ∧ (h1_tag_check 1).score = 10
    ∧ (h1_tag_check 1).max_score = 10 :=
  (C6_h1_tag_check 1).2.2 rfl

/-- C7 counterexample: when the probe of `/sitemap.xml` raises and the probe
of `/sitemap_index.xml` would return 200, `_check_sitemap` returns false even
though one of the two probe outcomes is a 200 — the exception aborts the
loop before the second URL is tried, so the claim's "true iff at least one
probe returns 200" fails here. -/
theorem C7_counterexample :
    check_sitemap (Except.error ()) (Except.ok 200) = false
    ∧ ((Except.error () : ProbeOutcome) = Except.ok 200
        ∨ (Except.ok 200 : ProbeOutcome) = Except.ok 200) :=
  ⟨rfl, Or.inr rfl⟩

/-- C7 (amended): `_check_sitemap` never raises (it is a total function of
the two probe outcomes) and returns true iff the first probe returns 200,
or the first probe completes with a non-200 status and the second returns
200 — an exception in the first probe skips the second probe and yields
false. The `xml_sitemap` check scores 5/5 `pass` exactly when it returns
true, and 0/5 `warning` otherwise. -/
theorem C7_check_sitemap (probe1 probe2 : ProbeOutcome) :
    (check_sitemap probe1 probe2 = true ↔
        probe1 = Except.ok 200
          ∨ ((∃ s, probe1 = Except.ok s ∧ s ≠ 200) ∧ probe2 = Except.ok 200))
    ∧ (check_sitemap probe1 probe2 = true →
        xml_sitemap_check (check_sitemap probe1 probe2)
          = ⟨"pass", 5, 5, "XML sitemap found", none, "low"⟩)
    ∧ (check_sitemap probe1 probe2 = false →
        xml_sitemap_check (check_sitemap probe1 probe2)
          = ⟨"warning", 0, 5, "XML sitemap not found",
              some "Create an XML sitemap to help search engines index your content",
              "medium"⟩) := by
  refine ⟨?_, ?_, ?_⟩
  · cases probe1 with
    | error e => simp [check_sitemap]
    | ok s1 =>
        by_cases h1 : s1 = 200
        · subst h1
          simp [check_sitemap]
        · cases probe2 with
          | error e => simp [check_sitemap, h1]
          | ok s2 => simp [check_sitemap, h1]
  · intro h
    simp [xml_sitemap_check, h]
  · intro h
    simp [xml_sitemap_check, h]

/-- Closed instance of `C7_check_sitemap`: first probe 404, second 200. -/
theorem C7_check_sitemap_witness :
    check_sitemap (Except.ok 404) (Except.ok 200) = true :=
  (C7_check_sitemap (Except.ok 404) (Except.ok 200)).1.mpr
    (Or.inr ⟨⟨404, rfl, by decide⟩, rfl⟩)

/-- C8: when the page fetch raises, `analyze_website` returns no partial
result: it re-raises exactly one wrapped error whose message starts with
`Failed to fetch website: `, and any successful return implies the fetch
succeeded. -/
theorem C8_analyze_website (url : String) (fetch : Except String Response) :
    (∀ e, fetch = Except.error e →
        analyze_website url fetch = Except.error ("Failed to fetch website: " ++ e))
    ∧ (∀ res, analyze_website url fetch = Except.ok res →
        ∃ r, fetch = Except.ok r) := by
  constructor
  · rintro e rfl
    rfl
  · intro res h
    cases fetch with
    | error e => simp [analyze_website] at h
    | ok r => exact ⟨r, rfl⟩

/-- Closed instance of `C8_analyze_website`: a refused connection yields the
wrapped fetch error. -/
theorem C8_analyze_website_witness :
    analyze_website "http://example.com/" (Except.error "Connection refused")
      = Except.error "Failed to fetch website: Connection refused" :=
  (C8_analyze_website "http://example.com/" (Except.error "Connection refused")).1
    "Connection refused" rfl

end SeoAnalyzer

namespace CacheService

/-- One entry of `CacheService._cache`: the stored value plus the three
timestamps the code keeps. `time.time()` values are modelled as exact
rationals. -/
structure Entry (α : Type) where
  value : α
  created_at : ℚ
  accessed_at : ℚ
  expires_at : ℚ
deriving Repr, DecidableEq

/-- The `_cache` dict, as a map from keys to entries (`none` = absent). -/
def Cache (α : Type) : Type := String → Option (Entry α)

/-- The empty `_cache` that `__init__` creates. -/
def emptyCache (α : Type) : Cache α := fun _ => none

/-- `CacheService.get(key)` evaluated at wall-clock time `now`, returning
the result together with the updated `_cache` state: `None` for an absent
key; for an expired entry (`expires_at < now`) the entry is deleted and
`None` returned; otherwise `accessed_at` is refreshed and the value
returned. -/
def get {α : Type} (c : Cache α) (key : String) (now : ℚ) : Option α × Cache α :=
  match c key with
  | none => (none, c)
  | some e =>
      if e.expires_at < now then
        (none, fun k => if k = key then none else c k)
      else
        (some e.value, fun k => if k = key then some { e with accessed_at := now } else c k)

/-- `CacheService.set(key, value, ttl)` at time `now`; a `ttl` of `None`
falls back to `_default_ttl = 3600`. -/
def set {α : Type} (c : Cache α) (key : String) (value : α) (ttl : Option ℚ)
    (now : ℚ) : Cache α :=
  let t := ttl.getD 3600
  fun k =>
    if k = key then
      some { value := value, created_at := now, accessed_at := now, expires_at := now + t }
    else c k

/-- `CacheService.delete(key)`: `True` and the entry removed when the key is
present; `False` with the dict untouched when absent. -/
def delete {α : Type} (c : Cache α) (key : String) : Bool × Cache α :=
  match c key with
  | some _ => (true, fun k => if k = key then none else c k)
  | none => (false, c)

lemma get_absent {α : Type} (c : Cache α) (k : String) (now : ℚ)
    (h : c k = none) : get c k now = (none, c) := by
  simp [get, h]

/-- C9: after `set(k, v, t)` with `t > 0` at time `now₁`, a `get(k)` at any
time strictly before the stored `expires_at = now₁ + t` returns `v`; a
`get(k)` at a time `now₂` with `expires_at < now₂` returns `None` and
removes the entry (so any later `get(k)` also returns `None`); and `get` of
a key with no entry returns `None` and leaves the state unchanged. -/
theorem C9_cache_get_set {α : Type} (c : Cache α) (k : String) (v : α)
    (t now₁ now₂ : ℚ) (ht : 0 < t) :
    (now₂ < now₁ + t →
        (get (set c k v (some t) now₁) k now₂).1 = some v)
    ∧ (∀ e, c k = some e → e.expires_at < now₂ →
        (get c k now₂).1 = none
          ∧ (get c k now₂).2 k = none
          ∧ ∀ now₃, (get (get c k now₂).2 k now₃).1 = none)
    ∧ (c k = none → get c k now₂ = (none, c)) := by
  refine ⟨?_, ?_, ?_⟩
  · intro h
    have hno : ¬ (now₁ + t < now₂) := not_lt.mpr (le_of_lt h)
    simp [get, set, hno]
  · intro e hce he
    have h2 : (get c k now₂).2 k = none := by
      simp [get, hce, he]
    refine ⟨by simp [get, hce, he], h2, fun now₃ => ?_⟩
    rw [get_absent _ _ _ h2]
  · exact fun h => get_absent _ _ _ h

/-- Closed instance of `C9_cache_get_set`: value 42 set at time 0 with
ttl 10 is still returned at time 5. -/
theorem C9_cache_get_set_witness :
    (get (set (emptyCache ℕ) "k" 42 (some 10) 0) "k" 5).1 = some 42 :=
  (C9_cache_get_set (emptyCache ℕ) "k" 42 10 0 5 (by norm_num)).1 (by norm_num)

/-- C10: `delete(k)` returns `True` iff `k` is present; when present it
removes exactly the entry for `k` (every other key's entry is untouched);
when absent it returns `False` and the whole state is unchanged. -/
theorem C10_cache_delete {α : Type} (c : Cache α) (k : String) :
    ((delete c k).1 = true ↔ (c k).isSome)
    ∧ ((c k).isSome →
        (delete c k).2 k = none ∧ ∀ k', k' ≠ k → (delete c k).2 k' = c k')
    ∧ (c k = none → (delete c k).2 = c) := by
  refine ⟨?_, ?_, ?_⟩
  · cases hck : c k with
    | none => simp [delete, hck]
    | some e => simp [delete, hck]
  · intro hsome
    cases hck : c k with
    | none => rw [hck] at hsome; simp at hsome
    | some e =>
        refine ⟨by simp [delete, hck], fun k' hk' => ?_⟩
        simp [delete, hck, hk']
  · intro hck
    simp [delete, hck]

/-- Closed instance of `C10_cache_delete`: deleting the one present key
reports `True` and leaves it absent. -/
theorem C10_cache_delete_witness :
    (delete (set (emptyCache ℕ) "a" 1 (some 10) 0) "a").1 = true
    ∧ (delete (set (emptyCache ℕ) "a" 1 (some 10) 0) "a").2 "a" = none :=
  ⟨(C10_cache_delete (set (emptyCache ℕ) "a" 1 (some 10) 0) "a").1.mpr (by decide),
   ((C10_cache_delete (set (emptyCache ℕ) "a" 1 (some 10) 0) "a").2.1 (by decide)).1⟩

end CacheService
